import Mathlib

/-!
# CachewDB — verification of the specified core against the source

Shallow embedding of the CachewDB server (repository `theopfr/cachew-db`)
in Lean 4, covering the subsystems the claims are about:

* the value model and typed ordered store (`src/cachew/src/schemas.rs`,
  `src/cachew/src/database.rs`),
* the session/state manager (`src/cachew/src/state.rs`),
* the request parser (`src/cachew/src/parser.rs`),
* the CASP frame validation and the per-request step of the connection
  handler (`src/cachew/src/server.rs`),
* the response encoder (`src/cachew/src/response.rs`).

Modelling conventions:

* Rust `BTreeMap<String, Vec<u8>>` (keys mapped to bincode-serialized
  values) is modelled as an association list `List (String × ValueType)`
  whose keys are kept strictly ascending; the bincode round trip
  (`deserialize (serialize v) = v`) is elided and values are stored
  directly.  Rust's `String` ordering is byte-wise lexicographic, which
  agrees with the code-point lexicographic order of Lean's `String`
  (UTF-8 preserves code-point order).
* `f32` has no shallow embedding; a float value is represented by the
  decimal text the server would print for it.  No claim below depends on
  float arithmetic.
* `i32` payloads are modelled as `Int`; the claims do not exercise
  integer overflow.
* The Rust error macros turn structured error kinds into display strings.
  The rendering is injective on kinds, so errors are modelled by the
  structured kinds themselves (`ErrorType` wrapping the four enums of
  `src/cachew/src/errors/`).
* Request lines are processed byte-wise in Rust; frames are ASCII by the
  protocol, so they are modelled as `List Char` / `String` with
  character-level indexing.
-/

namespace Cachew

/-- `DatabaseType` from `schemas.rs`: the store's configured value type. -/
inductive DatabaseType where
  | Str
  | Int
  | Float
  | Bool
  | Json
deriving DecidableEq, Repr

/-- `ValueType` from `schemas.rs`.  The `Float` payload is the decimal
rendering of the `f32` (see the header notes). -/
inductive ValueType where
  | Str (s : String)
  | Int (n : Int)
  | Float (text : String)
  | Bool (b : Bool)
  | Json (s : String)
deriving DecidableEq, Repr

/-- `KeyValuePair` from `schemas.rs`. -/
structure KeyValuePair where
  key : String
  value : ValueType
deriving DecidableEq, Repr

/-- `ProtocolErrorType` from `errors/protocol_errors.rs`. -/
inductive ProtocolErrorType where
  | EmptyRequest
  | StartMarkerNotFound (marker : String)
  | EndMarkerNotFound (marker : String)
deriving DecidableEq, Repr

/-- `ParserErrorType` from `errors/parser_errors.rs`. -/
inductive ParserErrorType where
  | InvalidRange (n : Nat)
  | UnexpectedCharacter
  | InvalidKeyValuePair (n : Nat)
  | UnknownQueryOperation (s : String)
  | WrongValueType (dbType : String)
  | WrongAuthentication
  | StringQuotesNotFound
  | UnexpectedParameters (cmd : String)
  | UnescapedDoubleQuote
deriving DecidableEq, Repr

/-- `AuthenticationErrorType` from `errors/authentication_errors.rs`. -/
inductive AuthenticationErrorType where
  | NotAuthenticated
  | AuthenticationFailed
deriving DecidableEq, Repr

/-- `DatabaseErrorType` from `errors/database_errors.rs`. -/
inductive DatabaseErrorType where
  | KeyNotFound (key : String)
  | InvalidRangeOrder
  | WrongValueType
deriving DecidableEq, Repr

/-- The Rust code erases all four error enums into display `String`s via
the `*_error!` macros; the rendering is injective on kinds, so the erased
form is modelled as this sum. -/
inductive ErrorType where
  | protocolE (e : ProtocolErrorType)
  | parserE (e : ParserErrorType)
  | authE (e : AuthenticationErrorType)
  | dbE (e : DatabaseErrorType)
deriving DecidableEq, Repr

/-- Decidable equality for `Except`, so that results of fallible
operations can be compared by `decide`. -/
instance {ε α : Type} [DecidableEq ε] [DecidableEq α] : DecidableEq (Except ε α) :=
  fun x y =>
    match x, y with
    | .ok a, .ok b =>
      if h : a = b then isTrue (by rw [h])
      else isFalse (by intro hc; cases hc; exact h rfl)
    | .error a, .error b =>
      if h : a = b then isTrue (by rw [h])
      else isFalse (by intro hc; cases hc; exact h rfl)
    | .ok _, .error _ => isFalse (by intro hc; cases hc)
    | .error _, .ok _ => isFalse (by intro hc; cases hc)

/-- `QueryRequest` from `schemas.rs` (including the `EXISTS` and
`SHUTDOWN` variants used by `parser.rs`, `state.rs` and `server.rs`). -/
inductive QueryRequest where
  | GET (key : String)
  | SET (kv : KeyValuePair)
  | SET_MANY (kvs : List KeyValuePair)
  | GET_RANGE (key_lower key_upper : String)
  | GET_MANY (keys : List String)
  | DEL (key : String)
  | DEL_RANGE (key_lower key_upper : String)
  | DEL_MANY (keys : List String)
  | AUTH (password : String)
  | CLEAR
  | LEN
  | PING
  | EXISTS (key : String)
  | SHUTDOWN
deriving DecidableEq, Repr

/-- `QueryResponseType` from `schemas.rs` (including the `EXISTS_OK` and
`SHUTDOWN_OK` variants used by `state.rs` and `response.rs`). -/
inductive QueryResponseType where
  | GET_OK (v : ValueType)
  | GET_RANGE_OK (vs : List ValueType)
  | GET_MANY_OK (vs : List ValueType)
  | DEL_OK
  | DEL_RANGE_OK
  | DEL_MANY_OK
  | SET_OK
  | SET_MANY_OK
  | AUTH_OK
  | CLEAR_OK
  | LEN_OK (n : Nat)
  | PING_OK
  | EXISTS_OK (b : Bool)
  | SHUTDOWN_OK
deriving DecidableEq, Repr

/-- Executable lexicographic comparison on char lists.  Rust compares
`String`s byte-wise; on UTF-8 data that is exactly code-point
lexicographic order, which this computes. -/
def listLtChar : List Char → List Char → Bool
  | _, [] => false
  | [], _ :: _ => true
  | a :: as, b :: bs =>
    if a < b then true else if b < a then false else listLtChar as bs

/-- Executable `String` strict order (the order Rust's `>` in
`database.rs` uses, transported to code points). -/
def strLt (a b : String) : Bool :=
  listLtChar a.data b.data

/-- Executable `String` order, inclusive. -/
def strLe (a b : String) : Bool :=
  !strLt b a

/-- `listLtChar` computes the lexicographic order on char lists. -/
theorem listLtChar_iff_lex :
    ∀ as bs : List Char, listLtChar as bs = true ↔ List.Lex (· < ·) as bs := by
  intro as
  induction as with
  | nil =>
    intro bs
    cases bs with
    | nil => simp [listLtChar]
    | cons b bs => simp [listLtChar, List.Lex.nil]
  | cons a as ih =>
    intro bs
    cases bs with
    | nil => simp [listLtChar, List.Lex.not_nil_right]
    | cons b bs =>
      by_cases hab : a < b
      · simp only [listLtChar, if_pos hab, true_iff]
        exact List.Lex.rel hab
      · by_cases hba : b < a
        · simp only [listLtChar, if_neg hab, if_pos hba, Bool.false_eq_true, false_iff]
          intro hlex
          cases hlex with
          | cons h => exact absurd hba (lt_irrefl a)
          | rel h => exact hab h
        · have hEq : a = b := le_antisymm (not_lt.mp hba) (not_lt.mp hab)
          subst hEq
          simp only [listLtChar, if_neg hab, if_neg hba]
          rw [ih bs]
          exact (List.Lex.cons_iff (r := (· < ·))).symm

/-- `strLt` agrees with the `String` order. -/
theorem strLt_iff (a b : String) : strLt a b = true ↔ a < b := by
  rw [String.lt_iff_toList_lt]
  exact listLtChar_iff_lex a.data b.data

/-- `strLe` agrees with the inclusive `String` order. -/
theorem strLe_iff (a b : String) : strLe a b = true ↔ a ≤ b := by
  rw [strLe, Bool.not_eq_true', ← not_lt (α := String)]
  constructor
  · intro h hba
    exact absurd ((strLt_iff b a).mpr hba) (by simp [h])
  · intro h
    cases hb : strLt b a with
    | false => rfl
    | true => exact absurd ((strLt_iff b a).mp hb) h

/-- The `Database` struct from `database.rs`: the configured type plus the
`BTreeMap` storage, modelled as an association list with strictly
ascending keys (see header notes). -/
structure Database where
  database_type : DatabaseType
  storage : List (String × ValueType)
deriving DecidableEq, Repr

/-- `BTreeMap::get`: the value bound to `k`, if any.  Keys are unique in a
`BTreeMap`, so taking the first match is exact. -/
def lookupKey (storage : List (String × ValueType)) (k : String) : Option ValueType :=
  (storage.find? (fun p => p.1 == k)).map Prod.snd

/-- `BTreeMap::remove` on the association-list representation: since keys
are unique, removing the entry for `k` is dropping every pair keyed `k`. -/
def removeKey (storage : List (String × ValueType)) (k : String) : List (String × ValueType) :=
  storage.filter (fun p => p.1 != k)

/-- `BTreeMap::insert` on the sorted association-list representation:
place `(k, v)` at its ordered position, replacing an existing binding. -/
def insertKey (k : String) (v : ValueType) :
    List (String × ValueType) → List (String × ValueType)
  | [] => [(k, v)]
  | (k', v') :: rest =>
    if strLt k k' then (k, v) :: (k', v') :: rest
    else if k == k' then (k, v) :: rest
    else (k', v') :: insertKey k v rest

namespace Database

/-- `Database::check_value_type` from `database.rs`, factored through the
configured type tag. -/
def checkType : DatabaseType → ValueType → Bool
  | .Str, .Str _ => true
  | .Int, .Int _ => true
  | .Float, .Float _ => true
  | .Bool, .Bool _ => true
  | .Json, .Json _ => true
  | _, _ => false

/-- `Database::check_value_type`. -/
def check_value_type (db : Database) (v : ValueType) : Bool :=
  checkType db.database_type v

/-- `Database::get`. -/
def get (db : Database) (key : String) : Except ErrorType QueryResponseType :=
  match lookupKey db.storage key with
  | some v => .ok (.GET_OK v)
  | none => .error (.dbE (.KeyNotFound key))

/-- `Database::get_range`: error on `key_lower > key_upper`, otherwise the
values of the keys in the inclusive range, in storage (ascending) order. -/
def get_range (db : Database) (key_lower key_upper : String) :
    Except ErrorType QueryResponseType :=
  if strLt key_upper key_lower then .error (.dbE .InvalidRangeOrder)
  else
    .ok (.GET_RANGE_OK
      (((db.storage.filter
          (fun p => strLe key_lower p.1 && strLe p.1 key_upper)).map Prod.snd)))

/-- Loop body of `Database::get_many`: collect the values of the listed
keys in list order, failing at the first missing key. -/
def getManyValues (storage : List (String × ValueType)) :
    List String → Except ErrorType (List ValueType)
  | [] => .ok []
  | k :: rest =>
    match lookupKey storage k with
    | some v => (getManyValues storage rest).map (fun vs => v :: vs)
    | none => .error (.dbE (.KeyNotFound k))

/-- `Database::get_many`: the values of the listed keys in list order,
failing at the first missing key. -/
def get_many (db : Database) (keys : List String) :
    Except ErrorType QueryResponseType :=
  (getManyValues db.storage keys).map QueryResponseType.GET_MANY_OK

/-- `Database::del`: remove the key (missing key is not an error). -/
def del (db : Database) (key : String) :
    Except ErrorType QueryResponseType × Database :=
  (.ok .DEL_OK, { db with storage := removeKey db.storage key })

/-- `Database::del_range`: error on inverted bounds, else delete all keys
in the inclusive range. -/
def del_range (db : Database) (key_lower key_upper : String) :
    Except ErrorType QueryResponseType × Database :=
  if strLt key_upper key_lower then (.error (.dbE .InvalidRangeOrder), db)
  else
    let kept := db.storage.filter
      (fun p => !(strLe key_lower p.1 && strLe p.1 key_upper))
    (.ok .DEL_RANGE_OK, { db with storage := kept })

/-- `Database::del_many`: remove each listed key; never fails. -/
def del_many (db : Database) (keys : List String) :
    Except ErrorType QueryResponseType × Database :=
  (.ok .DEL_MANY_OK, { db with storage := keys.foldl removeKey db.storage })

/-- `Database::set`: reject a value whose tag differs from the configured
type, else insert (an upsert on an existing key). -/
def set (db : Database) (key : String) (value : ValueType) :
    Except ErrorType QueryResponseType × Database :=
  if !db.check_value_type value then (.error (.dbE .WrongValueType), db)
  else (.ok .SET_OK, { db with storage := insertKey key value db.storage })

/-- `Database::set_many` from `database.rs` lines 189–199: a single pass
that validates and inserts each pair in turn, stopping at the first pair
whose value fails the type check.  Pairs before the failing one stay
inserted. -/
def set_many (db : Database) : List KeyValuePair → Except ErrorType QueryResponseType × Database
  | [] => (.ok .SET_MANY_OK, db)
  | pair :: rest =>
    if !db.check_value_type pair.value then (.error (.dbE .WrongValueType), db)
    else set_many { db with storage := insertKey pair.key pair.value db.storage } rest

/-- Modelled from the spec: `Database::clear` is invoked by
`State::execute_request` (`state.rs` line 80) but its definition is not
among the files under `src`; §4.2 of the spec gives `clear() → ok`. -/
def clear (db : Database) : Except ErrorType QueryResponseType × Database :=
  (.ok .CLEAR_OK, { db with storage := [] })

/-- Modelled from the spec: `Database::len` is invoked by
`State::execute_request` (`state.rs` line 81) but its definition is not
among the files under `src`; §4.2 gives `len() → non-negative integer`. -/
def len (db : Database) : Except ErrorType QueryResponseType :=
  .ok (.LEN_OK db.storage.length)

/-- Modelled from the spec: `Database::exists` is invoked by
`State::execute_request` (`state.rs` line 83) but its definition is not
among the files under `src`; §4.2 gives `exists(k) → bool`. -/
def existsKey (db : Database) (key : String) : Except ErrorType QueryResponseType :=
  .ok (.EXISTS_OK (lookupKey db.storage key).isSome)

end Database

/-- `DatabaseType`'s `Display` impl from `schemas.rs`. -/
def DatabaseType.display : DatabaseType → String
  | .Str => "STR"
  | .Int => "INT"
  | .Float => "FLOAT"
  | .Bool => "BOOL"
  | .Json => "JSON"

/-- The `State` struct from `state.rs`.  The `HashMap<String, bool>` auth
table only ever stores `true`, so it is modelled as the list of
authenticated addresses; the tokio shutdown broadcast channel is elided
(shutdown signalling is modelled at the handler-step level, see
`handle_client_step`). -/
structure State where
  db : Database
  auth_table : List String
  password : String
  database_type : DatabaseType
deriving DecidableEq, Repr

namespace State

/-- `State::is_authenticated`. -/
def is_authenticated (st : State) (address : String) : Bool :=
  st.auth_table.contains address

/-- `State::deauthenticate`. -/
def deauthenticate (st : State) (address : String) : State :=
  { st with auth_table := st.auth_table.filter (fun a => a != address) }

/-- `State::authenticate`: on a password match, insert the client address
into the auth table (`HashMap::insert`, idempotent on the set model). -/
def authenticate (st : State) (address given_password : String) :
    Except ErrorType QueryResponseType × State :=
  if given_password == st.password then
    let table := if st.auth_table.contains address then st.auth_table
                 else address :: st.auth_table
    (.ok .AUTH_OK, { st with auth_table := table })
  else
    (.error (.authE .AuthenticationFailed), st)

/-- `State::execute_request` from `state.rs` lines 56–86: the
authentication gate followed by dispatch to the store. -/
def execute_request (st : State) (address : String) (request : QueryRequest) :
    Except ErrorType QueryResponseType × State :=
  if !st.is_authenticated address then
    match request with
    | .AUTH password => st.authenticate address password
    | _ => (.error (.authE .NotAuthenticated), st)
  else
    match request with
    | .GET key => (st.db.get key, st)
    | .GET_RANGE key_lower key_upper => (st.db.get_range key_lower key_upper, st)
    | .GET_MANY keys => (st.db.get_many keys, st)
    | .DEL key =>
      match st.db.del key with
      | (r, db') => (r, { st with db := db' })
    | .DEL_RANGE key_lower key_upper =>
      match st.db.del_range key_lower key_upper with
      | (r, db') => (r, { st with db := db' })
    | .DEL_MANY keys =>
      match st.db.del_many keys with
      | (r, db') => (r, { st with db := db' })
    | .SET kv =>
      match st.db.set kv.key kv.value with
      | (r, db') => (r, { st with db := db' })
    | .SET_MANY kvs =>
      match st.db.set_many kvs with
      | (r, db') => (r, { st with db := db' })
    | .AUTH password => st.authenticate address password
    | .CLEAR =>
      match st.db.clear with
      | (r, db') => (r, { st with db := db' })
    | .LEN => (st.db.len, st)
    | .PING => (.ok .PING_OK, st)
    | .EXISTS key => (st.db.existsKey key, st)
    | .SHUTDOWN => (.ok .SHUTDOWN_OK, st)

end State

/-! ## Request parser (`parser.rs`)

The parser works on one request line with the CASP envelope already
stripped.  Rust operates on byte slices; request bodies are ASCII per the
protocol, so the line is modelled as a `List Char`. -/

/-- `str::trim_matches(|c| c == ' ')`: drop spaces from both ends. -/
def trimSpacesChars (l : List Char) : List Char :=
  ((l.dropWhile (fun c => c == ' ')).reverse.dropWhile (fun c => c == ' ')).reverse

/-- Loop of `split_at_delimiter` (`parser.rs` lines 94–121): walk the
characters tracking quote state (`"` toggles unless preceded by `\`) and
the previous character; a delimiter outside quotes ends the current part.
`acc` holds the current part reversed. -/
def splitAux (delimiter : Char) :
    List Char → Bool → Option Char → List Char → List (List Char)
  | [], _, _, acc => [trimSpacesChars acc.reverse]
  | c :: rest, inside_quotes, prev_char, acc =>
    if c == '"' && prev_char != some '\\' then
      splitAux delimiter rest (!inside_quotes) (some c) (c :: acc)
    else if c == delimiter && !inside_quotes then
      trimSpacesChars acc.reverse :: splitAux delimiter rest inside_quotes (some c) []
    else
      splitAux delimiter rest inside_quotes (some c) (c :: acc)

/-- `split_at_delimiter` from `parser.rs`: split at a delimiter unless it
is inside a double-quoted substring, trimming spaces off every part. -/
def split_at_delimiter (string : List Char) (delimiter : Char) : List (List Char) :=
  splitAux delimiter string false none []

/-- `validate_key` from `parser.rs` lines 62–83.  Note the order of the
checks: the forbidden-character scan (`,` and `/`) runs on the whole token
first, before the quoted-key branch.  The quoted branch mirrors Rust's
`strip_prefix('"').unwrap_or(key).strip_suffix('"').unwrap_or(key)`
exactly, including the fallback to the whole token when the stripped tail
does not end in a quote. -/
def validate_key (key : List Char) : Except ErrorType (List Char) :=
  if key.any (fun c => c == ',' || c == '/') then
    .error (.parserE .UnexpectedCharacter)
  else if key.head? == some '"' && key.getLast? == some '"' then
    let string_key :=
      match (key.drop 1).getLast? with
      | some '"' => (key.drop 1).dropLast
      | _ => key
    if string_key.isEmpty then .error (.parserE .UnexpectedCharacter)
    else .ok string_key
  else if (split_at_delimiter key ' ').length > 1 then
    .error (.parserE .UnexpectedCharacter)
  else .ok key

/-- `parse_ranged_keys` from `parser.rs`: exactly two space-separated
tokens, both validated as keys. -/
def parse_ranged_keys (query_keys : List Char) :
    Except ErrorType (List Char × List Char) :=
  match split_at_delimiter query_keys ' ' with
  | [t0, t1] => do
    let lower_key ← validate_key t0
    let upper_key ← validate_key t1
    .ok (lower_key, upper_key)
  | tokens => .error (.parserE (.InvalidRange tokens.length))

/-- Loop of `parse_many_keys`: validate every token in order. -/
def validateKeys : List (List Char) → Except ErrorType (List (List Char))
  | [] => .ok []
  | t :: rest => do
    let k ← validate_key t
    let ks ← validateKeys rest
    .ok (k :: ks)

/-- `parse_many_keys` from `parser.rs`. -/
def parse_many_keys (query_keys : List Char) :
    Except ErrorType (List (List Char)) :=
  validateKeys (split_at_delimiter query_keys ' ')

/-- `str::starts_with` on the modelled byte slice. -/
def hasStart (marker : String) (l : List Char) : Bool :=
  marker.data.isPrefixOf l

/-- `str::strip_prefix(marker).unwrap()` for a marker known to be
present. -/
def dropStart (marker : String) (l : List Char) : List Char :=
  l.drop marker.data.length

/-- `parse_get` from `parser.rs` lines 130–151. -/
def parse_get (query : List Char) : Except ErrorType QueryRequest :=
  if hasStart "RANGE " query then
    match parse_ranged_keys (dropStart "RANGE " query) with
    | .ok (lower, upper) => .ok (.GET_RANGE (String.mk lower) (String.mk upper))
    | .error e => .error e
  else if hasStart "MANY " query then
    match parse_many_keys (dropStart "MANY " query) with
    | .ok keys => .ok (.GET_MANY (keys.map String.mk))
    | .error e => .error e
  else
    match validate_key query with
    | .ok key => .ok (.GET (String.mk key))
    | .error e => .error e

/-- `parse_del` from `parser.rs`. -/
def parse_del (query : List Char) : Except ErrorType QueryRequest :=
  if hasStart "RANGE " query then
    match parse_ranged_keys (dropStart "RANGE " query) with
    | .ok (lower, upper) => .ok (.DEL_RANGE (String.mk lower) (String.mk upper))
    | .error e => .error e
  else if hasStart "MANY " query then
    match parse_many_keys (dropStart "MANY " query) with
    | .ok keys => .ok (.DEL_MANY (keys.map String.mk))
    | .error e => .error e
  else
    match validate_key query with
    | .ok key => .ok (.DEL (String.mk key))
    | .error e => .error e

/-- The regex `([^\\])"` of `parse_set_value`: is there a `"` preceded by
a character other than `\`? -/
def hasUnescapedQuote : List Char → Bool
  | a :: b :: rest => (a != '\\' && b == '"') || hasUnescapedQuote (b :: rest)
  | _ => false

/-- Decimal digit run to a number; `none` on a non-digit. -/
def digitsToNatAux : List Char → Nat → Option Nat
  | [], acc => some acc
  | c :: rest, acc =>
    if c.isDigit then digitsToNatAux rest (acc * 10 + (c.toNat - '0'.toNat))
    else none

/-- Non-empty decimal digit run to a number. -/
def digitsToNat : List Char → Option Nat
  | [] => none
  | l => digitsToNatAux l 0

/-- Rust `str::parse::<i32>`: optional sign, a non-empty digit run, and
the value must fit in `i32`. -/
def parse_i32 (s : List Char) : Option Int :=
  match s with
  | '+' :: ds =>
    match digitsToNat ds with
    | some n => if n ≤ 2147483647 then some (Int.ofNat n) else none
    | none => none
  | '-' :: ds =>
    match digitsToNat ds with
    | some n => if n ≤ 2147483648 then some (-(Int.ofNat n)) else none
    | none => none
  | ds =>
    match digitsToNat ds with
    | some n => if n ≤ 2147483647 then some (Int.ofNat n) else none
    | none => none

/-- Rust `str::parse::<bool>`: exactly `true` or `false`. -/
def parse_bool (s : List Char) : Option Bool :=
  if s == "true".data then some true
  else if s == "false".data then some false
  else none

/-- Split a char list at the first `.`, if any. -/
def splitAtDot : List Char → List Char × Option (List Char)
  | [] => ([], none)
  | '.' :: rest => ([], some rest)
  | c :: rest =>
    let (a, b) := splitAtDot rest
    (c :: a, b)

/-- Unsigned decimal-float body: `digits`, `digits.`, `.digits` or
`digits.digits`. -/
def isFloatBody (l : List Char) : Bool :=
  match splitAtDot l with
  | (ds, none) => !ds.isEmpty && ds.all Char.isDigit
  | (ds, some fs) =>
    !(ds.isEmpty && fs.isEmpty) && ds.all Char.isDigit && fs.all Char.isDigit

/-- Rust `str::parse::<f32>` restricted to plain decimal forms with an
optional sign.  The accepted token is kept as the float's text (see the
header notes on `f32`); exponent, `inf` and `nan` forms are elided — no
claim depends on them. -/
def parse_f32_text (s : List Char) : Option String :=
  match s with
  | '+' :: rest => if isFloatBody rest then some (String.mk s) else none
  | '-' :: rest => if isFloatBody rest then some (String.mk s) else none
  | _ => if isFloatBody s then some (String.mk s) else none

/-- `parse_set_value` from `parser.rs` lines 185–248, directed by the
configured type.  (For a `STR`/`JSON` token consisting of one lone `"`
Rust panics on `strip_suffix(..).unwrap()`; that panic is outside the
model, which returns the empty content there.) -/
def parse_set_value (value_query_parameter : List Char)
    (database_type : DatabaseType) : Except ErrorType ValueType :=
  match database_type with
  | .Str =>
    if !(value_query_parameter.head? == some '"'
        && value_query_parameter.getLast? == some '"') then
      .error (.parserE .StringQuotesNotFound)
    else
      let value := (value_query_parameter.drop 1).dropLast
      if hasUnescapedQuote value then .error (.parserE .UnescapedDoubleQuote)
      else .ok (.Str (String.mk value))
  | .Int =>
    match parse_i32 value_query_parameter with
    | some n => .ok (.Int n)
    | none => .error (.parserE (.WrongValueType DatabaseType.Int.display))
  | .Float =>
    match parse_f32_text value_query_parameter with
    | some t => .ok (.Float t)
    | none => .error (.parserE (.WrongValueType DatabaseType.Float.display))
  | .Bool =>
    match parse_bool value_query_parameter with
    | some b => .ok (.Bool b)
    | none => .error (.parserE (.WrongValueType DatabaseType.Bool.display))
  | .Json =>
    if !(value_query_parameter.head? == some '"'
        && value_query_parameter.getLast? == some '"') then
      .error (.parserE .StringQuotesNotFound)
    else
      let value := (value_query_parameter.drop 1).dropLast
      if hasUnescapedQuote value then .error (.parserE .UnescapedDoubleQuote)
      else .ok (.Json (String.mk value))

/-- Loop of the `SET MANY` branch of `parse_set`: each comma-separated
pair must split into exactly a key and a value token. -/
def parseSetPairs (database_type : DatabaseType) :
    List (List Char) → Except ErrorType (List KeyValuePair)
  | [] => .ok []
  | pair :: restPairs =>
    match split_at_delimiter pair ' ' with
    | [p0, p1] => do
      let key ← validate_key p0
      let value ← parse_set_value p1 database_type
      let rest ← parseSetPairs database_type restPairs
      .ok (⟨String.mk key, value⟩ :: rest)
    | parameters => .error (.parserE (.InvalidKeyValuePair parameters.length))

/-- `parse_set` from `parser.rs` lines 251–295. -/
def parse_set (query : List Char) (database_type : DatabaseType) :
    Except ErrorType QueryRequest :=
  if hasStart "MANY " query then
    match parseSetPairs database_type
        (split_at_delimiter (dropStart "MANY " query) ',') with
    | .ok pairs => .ok (.SET_MANY pairs)
    | .error e => .error e
  else
    match split_at_delimiter query ' ' with
    | [p0, p1] => do
      let key ← validate_key p0
      let value ← parse_set_value p1 database_type
      .ok (.SET ⟨String.mk key, value⟩)
    | parameters => .error (.parserE (.InvalidKeyValuePair parameters.length))

/-- `parse_auth` from `parser.rs`. -/
def parse_auth (password : List Char) : Except ErrorType QueryRequest :=
  if password.contains ' ' then .error (.parserE .WrongAuthentication)
  else .ok (.AUTH (String.mk password))

/-- `parse_exists` from `parser.rs`. -/
def parse_exists (query : List Char) : Except ErrorType QueryRequest :=
  match validate_key query with
  | .ok key => .ok (.EXISTS (String.mk key))
  | .error e => .error e

/-- `parse_single_command` from `parser.rs`: a no-arg command with any
trailing content is rejected. -/
def parse_single_command (request : List Char) (expected_command : String)
    (query_request : QueryRequest) : Except ErrorType QueryRequest :=
  if request.length > expected_command.data.length then
    .error (.parserE (.UnexpectedParameters expected_command))
  else .ok query_request

/-- `parse` from `parser.rs` lines 332–362: dispatch on the command
word. -/
def parse (request : List Char) (database_type : DatabaseType) :
    Except ErrorType QueryRequest :=
  if hasStart "GET " request then parse_get (dropStart "GET " request)
  else if hasStart "DEL " request then parse_del (dropStart "DEL " request)
  else if hasStart "SET " request then
    parse_set (dropStart "SET " request) database_type
  else if hasStart "AUTH " request then parse_auth (dropStart "AUTH " request)
  else if hasStart "CLEAR" request then parse_single_command request "CLEAR" .CLEAR
  else if hasStart "LEN" request then parse_single_command request "LEN" .LEN
  else if hasStart "PING" request then parse_single_command request "PING" .PING
  else if hasStart "EXISTS " request then parse_exists (dropStart "EXISTS " request)
  else if hasStart "SHUTDOWN" request then
    parse_single_command request "SHUTDOWN" .SHUTDOWN
  else .error (.parserE (.UnknownQueryOperation (String.mk request)))

/-! ## CASP frame validation and the connection handler (`server.rs`) -/

/-- `REQUEST_START_MARKER` from `server.rs`. -/
def REQUEST_START_MARKER : String := "CASP/"

/-- `REQUEST_END_MARKER` from `server.rs`. -/
def REQUEST_END_MARKER : String := "/\n"

/-- `check_protocol` from `server.rs` lines 18–35, on the read line
(byte slicing modelled at character level; frames are ASCII). -/
def check_protocol (request : List Char) : Except ErrorType Unit :=
  if request == [] || request == ['\n'] then
    .error (.protocolE .EmptyRequest)
  else if !(decide (request.length ≥ REQUEST_START_MARKER.data.length)
      && request.take REQUEST_START_MARKER.data.length == REQUEST_START_MARKER.data) then
    .error (.protocolE (.StartMarkerNotFound REQUEST_START_MARKER))
  else if !(request.drop (request.length - REQUEST_END_MARKER.data.length)
      == REQUEST_END_MARKER.data) then
    .error (.protocolE (.EndMarkerNotFound REQUEST_END_MARKER))
  else if request.length ≤ REQUEST_START_MARKER.data.length + REQUEST_END_MARKER.data.length then
    .error (.protocolE (.EndMarkerNotFound REQUEST_END_MARKER))
  else
    .ok ()

/-! ## Response encoder (`response.rs`) -/

namespace QueryResponse

/-- Constants of `response.rs`. -/
def CASP_PREFIX : String := "CASP"

def CASP_SUFFIX : String := "\n"

def CASP_OK_INDENTIFIER : String := "OK"

def CASP_ERROR_INDENTIFIER : String := "ERROR"

def CASP_WARN_INDENTIFIER : String := "WARN"

/-- `QueryResponse::build_ok_response` from `response.rs` lines 18–25. -/
def build_ok_response (query_identifier : String) (content : Option String)
    (database_type : Option DatabaseType) : String :=
  match content, database_type with
  | none, none =>
    CASP_PREFIX ++ "/" ++ CASP_OK_INDENTIFIER ++ "/" ++ query_identifier
      ++ "/" ++ CASP_SUFFIX
  | some content, none =>
    CASP_PREFIX ++ "/" ++ CASP_OK_INDENTIFIER ++ "/" ++ query_identifier
      ++ "/" ++ content ++ "/" ++ CASP_SUFFIX
  | some content, some database_type =>
    CASP_PREFIX ++ "/" ++ CASP_OK_INDENTIFIER ++ "/" ++ database_type.display
      ++ "/" ++ query_identifier ++ "/" ++ content ++ "/" ++ CASP_SUFFIX
  | none, some database_type =>
    CASP_PREFIX ++ "/" ++ CASP_OK_INDENTIFIER ++ "/" ++ database_type.display
      ++ "/" ++ query_identifier ++ "/" ++ CASP_SUFFIX

/-- `QueryResponse::handle_value_types` from `response.rs`: the textual
rendering of a value (`Str` quoted, `Json` verbatim, numbers and booleans
in `Display` form — a `Float`'s model already is its rendering). -/
def handle_value_types : ValueType → String
  | .Str value => "\"" ++ value ++ "\""
  | .Int value => toString value
  | .Float text => text
  | .Bool value => if value then "true" else "false"
  | .Json value => value

/-- The comma-joining loops of the `GET_RANGE_OK`/`GET_MANY_OK` arms of
`QueryResponse::ok` (`response.rs` lines 42–62). -/
def joinComma : List String → String
  | [] => ""
  | [v] => v
  | v :: w :: rest => v ++ "," ++ joinComma (w :: rest)

/-- `QueryResponse::ok` from `response.rs` lines 37–97. -/
def ok (response : QueryResponseType) (database_type : DatabaseType) : String :=
  match response with
  | .GET_OK value =>
    build_ok_response "GET" (some (handle_value_types value)) (some database_type)
  | .GET_RANGE_OK values =>
    build_ok_response "GET RANGE"
      (some (joinComma (values.map handle_value_types))) (some database_type)
  | .GET_MANY_OK values =>
    build_ok_response "GET MANY"
      (some (joinComma (values.map handle_value_types))) (some database_type)
  | .DEL_OK => build_ok_response "DEL" none none
  | .DEL_RANGE_OK => build_ok_response "DEL RANGE" none none
  | .DEL_MANY_OK => build_ok_response "DEL MANY" none none
  | .SET_OK => build_ok_response "SET" none none
  | .SET_MANY_OK => build_ok_response "SET MANY" none none
  | .AUTH_OK => build_ok_response "AUTH" none none
  | .CLEAR_OK => build_ok_response "CLEAR" none none
  | .LEN_OK length => build_ok_response "LEN" (some (toString length)) none
  | .PING_OK => build_ok_response "PING" (some "PONG") none
  | .EXISTS_OK ex =>
    build_ok_response "EXISTS" (some (if ex then "true" else "false")) none
  | .SHUTDOWN_OK => build_ok_response "SHUTDOWN" none none

/-- `QueryResponse::error` from `response.rs`. -/
def error (e : String) : String :=
  CASP_PREFIX ++ "/" ++ CASP_ERROR_INDENTIFIER ++ "/" ++ e ++ "/" ++ CASP_SUFFIX

/-- `QueryResponse::warn` from `response.rs`. -/
def warn (message : String) : String :=
  CASP_PREFIX ++ "/" ++ CASP_WARN_INDENTIFIER ++ "/" ++ message ++ "/" ++ CASP_SUFFIX

end QueryResponse

/-- What one iteration of the `handle_client` loop in `server.rs` (lines
63–109, after a successful line read) does with the line: the frame the
handler writes and whether the connection is closed, kept, or the
shutdown broadcast is triggered.  On `closeConn`/`replyError` the written
frame is `QueryResponse.error` applied to the rendered error. -/
inductive HandlerAction where
  | closeConn (e : ErrorType)
  | replyError (e : ErrorType)
  | reply (frame : String)
  | broadcastShutdown (frame : String)
deriving DecidableEq, Repr

/-- `str::trim` on the request body (Unicode whitespace both ends). -/
def trimWs (l : List Char) : List Char :=
  ((l.dropWhile Char.isWhitespace).reverse.dropWhile Char.isWhitespace).reverse

/-- One iteration of `handle_client` from `server.rs`: validate the CASP
envelope, strip it, parse, and dispatch.  Note that the `SHUTDOWN`
short-circuit (lines 79–92) fires on the parsed request *before*
`State::execute_request` — and hence before any authentication check. -/
def handle_client_step (st : State) (address : String) (line : List Char) :
    HandlerAction × State :=
  match check_protocol line with
  | .error e => (.closeConn e, st)
  | .ok _ =>
    let request :=
      trimWs ((dropStart REQUEST_START_MARKER line).dropLast.dropLast)
    match parse request st.database_type with
    | .error e => (.replyError e, st)
    | .ok query =>
      match query with
      | .SHUTDOWN =>
        (.broadcastShutdown (QueryResponse.ok .SHUTDOWN_OK st.database_type), st)
      | _ =>
        match st.execute_request address query with
        | (.ok result, st') => (.reply (QueryResponse.ok result st'.database_type), st')
        | (.error e, st') => (.replyError e, st')

/-! ## Claims -/

/-- Sanity: the embedding reproduces representative expectations of the
repository's own unit tests (`parser.rs` and `response.rs` test
modules). -/
theorem embedding_matches_repo_unit_tests :
    parse "GET key".data .Str = .ok (.GET "key") ∧
    parse "SET MANY key0 10, key1 -10".data .Int =
      .ok (.SET_MANY [⟨"key0", .Int 10⟩, ⟨"key1", .Int (-10)⟩]) ∧
    parse_get "\"key one\"".data = .ok (.GET "key one") ∧
    parse_get "key0 key1".data = .error (.parserE .UnexpectedCharacter) ∧
    parse_get "RANGE key0".data = .error (.parserE (.InvalidRange 1)) ∧
    QueryResponse.ok (.GET_OK (.Str "value")) .Str = "CASP/OK/STR/GET/\"value\"/\n" ∧
    QueryResponse.ok (.GET_OK (.Int (-100))) .Int = "CASP/OK/INT/GET/-100/\n" ∧
    QueryResponse.ok .PING_OK .Str = "CASP/OK/PING/PONG/\n" ∧
    QueryResponse.ok (.GET_RANGE_OK [.Str "value1", .Str "value2"]) .Str =
      "CASP/OK/STR/GET RANGE/\"value1\",\"value2\"/\n" ∧
    check_protocol "CASP/SET key value/\n".data = .ok () := by
  refine ⟨?_, ?_, ?_, ?_, ?_, ?_, ?_, ?_, ?_, ?_⟩ <;> rfl

/-- Inserting one key-value pair, as `set_many`'s loop body does. -/
def applyPair (db : Database) (p : KeyValuePair) : Database :=
  { db with storage := insertKey p.key p.value db.storage }

/-- C9: `del` returns `DEL_OK` even for an absent key; deleting an absent
key leaves the store unchanged; and deleting a key twice yields exactly
the state of deleting it once. -/
theorem del_ok_and_idempotent (db : Database) (key : String) :
    (db.del key).1 = .ok .DEL_OK ∧
    (lookupKey db.storage key = none → (db.del key).2 = db) ∧
    (db.del key).2.del key = db.del key := by
  refine ⟨rfl, ?_, ?_⟩
  · intro h
    have hf : db.storage.find? (fun p => p.1 == key) = none := by
      by_contra hne
      rcases Option.ne_none_iff_exists'.mp hne with ⟨p, hp⟩
      simp [lookupKey, hp] at h
    have hall : ∀ p ∈ db.storage, (p.1 != key) = true := by
      intro p hp
      have := List.find?_eq_none.mp hf p hp
      simpa [bne] using this
    simp [Database.del, removeKey, List.filter_eq_self.mpr hall]
  · simp [Database.del, removeKey, List.filter_filter]

/-- Witness for `del_ok_and_idempotent` at a concrete store. -/
theorem del_ok_and_idempotent_witness :
    ((⟨.Int, [("a", .Int 1)]⟩ : Database).del "b").1 = .ok .DEL_OK ∧
    ((⟨.Int, [("a", .Int 1)]⟩ : Database).del "b").2 = ⟨.Int, [("a", .Int 1)]⟩ ∧
    (((⟨.Int, [("a", .Int 1)]⟩ : Database).del "b").2.del "b" =
      (⟨.Int, [("a", .Int 1)]⟩ : Database).del "b") := by
  obtain ⟨h1, h2, h3⟩ := del_ok_and_idempotent ⟨.Int, [("a", .Int 1)]⟩ "b"
  exact ⟨h1, h2 (by decide), h3⟩

/-- C4: without a prior successful `AUTH`, every non-`AUTH` request gets
`notAuthenticated` and the state (store included) is untouched; `AUTH`
with the configured password returns `AUTH_OK`, marks the address
authenticated and leaves the store untouched; `AUTH` with any other
password fails with `authenticationFailed` and changes nothing. -/
theorem execute_request_auth_gate (st : State) (address : String)
    (h : st.is_authenticated address = false) :
    (∀ req : QueryRequest, (∀ pw, req ≠ .AUTH pw) →
      st.execute_request address req = (.error (.authE .NotAuthenticated), st)) ∧
    (∀ pw, pw = st.password →
      (st.execute_request address (.AUTH pw)).1 = .ok .AUTH_OK ∧
      (st.execute_request address (.AUTH pw)).2.is_authenticated address = true ∧
      (st.execute_request address (.AUTH pw)).2.db = st.db) ∧
    (∀ pw, pw ≠ st.password →
      st.execute_request address (.AUTH pw) =
        (.error (.authE .AuthenticationFailed), st)) := by
  refine ⟨?_, ?_, ?_⟩
  · intro req hne
    cases req with
    | AUTH pw => exact absurd rfl (hne pw)
    | _ => simp [State.execute_request, h]
  · intro pw hpw
    subst hpw
    have hmem : address ∉ st.auth_table := by
      simpa [State.is_authenticated] using h
    simp [State.execute_request, h, State.authenticate, State.is_authenticated, hmem]
  · intro pw hpw
    simp [State.execute_request, h, State.authenticate, hpw]

/-- Witness for `execute_request_auth_gate` at a concrete state. -/
theorem execute_request_auth_gate_witness :
    ((⟨⟨.Int, []⟩, [], "Pwd12345!", .Int⟩ : State).execute_request "1.2.3.4:80"
        (.GET "k") = (.error (.authE .NotAuthenticated), ⟨⟨.Int, []⟩, [], "Pwd12345!", .Int⟩)) ∧
    ((⟨⟨.Int, []⟩, [], "Pwd12345!", .Int⟩ : State).execute_request "1.2.3.4:80"
        (.AUTH "Pwd12345!")).1 = .ok .AUTH_OK := by
  obtain ⟨h1, h2, _⟩ :=
    execute_request_auth_gate ⟨⟨.Int, []⟩, [], "Pwd12345!", .Int⟩ "1.2.3.4:80" (by decide)
  exact ⟨h1 (.GET "k") (fun pw => by simp), (h2 "Pwd12345!" rfl).1⟩

/-- C1 counterexample: with configured type `INT` and an empty store,
`set_many [(k1, 1 : INT), (k2, 2.5 : FLOAT)]` fails with `wrongValueType`
but the store is *not* its pre-call state — the pair preceding the
mismatch was applied. -/
theorem set_many_not_atomic_cex :
    (Database.set_many ⟨.Int, []⟩ [⟨"k1", .Int 1⟩, ⟨"k2", .Float "2.5"⟩]).1
      = .error (.dbE .WrongValueType) ∧
    (Database.set_many ⟨.Int, []⟩ [⟨"k1", .Int 1⟩, ⟨"k2", .Float "2.5"⟩]).2
      ≠ (⟨.Int, []⟩ : Database) := by
  decide

/-- C1 amended: when some pair's value fails the configured-type check,
`set_many` fails with `wrongValueType` at the first mismatching pair, but
it is not atomic — the pairs of the longest all-valid prefix before the
mismatch remain applied to the store. -/
theorem set_many_applies_valid_prefix (db : Database) (pairs : List KeyValuePair)
    (h : ∃ p ∈ pairs, db.check_value_type p.value = false) :
    (db.set_many pairs).1 = .error (.dbE .WrongValueType) ∧
    (db.set_many pairs).2 =
      (pairs.takeWhile (fun p => db.check_value_type p.value)).foldl applyPair db := by
  induction pairs generalizing db with
  | nil => simp at h
  | cons p rest ih =>
    by_cases hp : db.check_value_type p.value
    · have hrest : ∃ q ∈ rest, db.check_value_type q.value = false := by
        rcases h with ⟨q, hq, hqv⟩
        rcases List.mem_cons.mp hq with rfl | hq'
        · exact absurd hp (by simp [hqv])
        · exact ⟨q, hq', hqv⟩
      have hrest' : ∃ q ∈ rest, (applyPair db p).check_value_type q.value = false := hrest
      obtain ⟨ih1, ih2⟩ := ih (applyPair db p) hrest'
      refine ⟨?_, ?_⟩
      · simpa [Database.set_many, hp, applyPair] using ih1
      · simpa [Database.set_many, hp, applyPair, List.takeWhile_cons] using ih2
    · have hp' : db.check_value_type p.value = false := by
        simpa using hp
      refine ⟨?_, ?_⟩
      · simp [Database.set_many, hp']
      · simp [Database.set_many, List.takeWhile_cons, hp']

/-- Witness for `set_many_applies_valid_prefix` at a concrete input. -/
theorem set_many_applies_valid_prefix_witness :
    (Database.set_many ⟨.Int, []⟩ [⟨"k1", .Int 1⟩, ⟨"k2", .Float "2.5"⟩]).1
      = .error (.dbE .WrongValueType) ∧
    (Database.set_many ⟨.Int, []⟩ [⟨"k1", .Int 1⟩, ⟨"k2", .Float "2.5"⟩]).2 =
      (([⟨"k1", .Int 1⟩, ⟨"k2", .Float "2.5"⟩] : List KeyValuePair).takeWhile
        (fun p => (⟨.Int, []⟩ : Database).check_value_type p.value)).foldl
          applyPair ⟨.Int, []⟩ :=
  set_many_applies_valid_prefix ⟨.Int, []⟩ _
    ⟨⟨"k2", .Float "2.5"⟩, by decide, by decide⟩

/-- The `BTreeMap` representation invariant: keys strictly ascending. -/
def SortedKeys (storage : List (String × ValueType)) : Prop :=
  storage.Pairwise (fun a b => a.1 < b.1)

/-- All listed keys present: `getManyValues` succeeds and pairs each key
with its stored value, in order. -/
theorem getManyValues_all_present (storage : List (String × ValueType)) :
    ∀ keys : List String, (∀ k ∈ keys, (lookupKey storage k).isSome) →
      ∃ vs, Database.getManyValues storage keys = .ok vs ∧
        List.Forall₂ (fun k v => lookupKey storage k = some v) keys vs := by
  intro keys
  induction keys with
  | nil => exact fun _ => ⟨[], rfl, List.Forall₂.nil⟩
  | cons k rest ih =>
    intro h
    obtain ⟨v, hv⟩ := Option.isSome_iff_exists.mp (h k (List.mem_cons_self k rest))
    obtain ⟨vs, hvs, hall⟩ := ih (fun k' hk' => h k' (List.mem_cons_of_mem k hk'))
    refine ⟨v :: vs, ?_, List.Forall₂.cons hv hall⟩
    simp [Database.getManyValues, hv, hvs, Except.map]

/-- A missing key after an all-present run makes `getManyValues` fail
with `keyNotFound` for exactly that key. -/
theorem getManyValues_first_missing (storage : List (String × ValueType))
    (k : String) (post : List String) (hk : lookupKey storage k = none) :
    ∀ pre : List String, (∀ k' ∈ pre, (lookupKey storage k').isSome) →
      Database.getManyValues storage (pre ++ k :: post) =
        .error (.dbE (.KeyNotFound k)) := by
  intro pre
  induction pre with
  | nil => intro _; simp [Database.getManyValues, hk]
  | cons p pre' ih =>
    intro h
    obtain ⟨v, hv⟩ := Option.isSome_iff_exists.mp (h p (List.mem_cons_self p pre'))
    have := ih (fun k' hk' => h k' (List.mem_cons_of_mem p hk'))
    simp [Database.getManyValues, hv, this, Except.map]

/-- C6: if every listed key is present, `get_many` returns their values
in the same order as the keys; otherwise it fails with `keyNotFound` for
the first missing key in list order (no partial result — the operation
does not mutate the store, its type is read-only). -/
theorem get_many_order_and_first_missing (db : Database) (keys : List String) :
    ((∀ k ∈ keys, (lookupKey db.storage k).isSome) →
      ∃ vs, db.get_many keys = .ok (.GET_MANY_OK vs) ∧
        List.Forall₂ (fun k v => lookupKey db.storage k = some v) keys vs) ∧
    (∀ pre k post, keys = pre ++ k :: post →
      (∀ k' ∈ pre, (lookupKey db.storage k').isSome) →
      lookupKey db.storage k = none →
      db.get_many keys = .error (.dbE (.KeyNotFound k))) := by
  constructor
  · intro h
    obtain ⟨vs, hvs, hall⟩ := getManyValues_all_present db.storage keys h
    exact ⟨vs, by simp [Database.get_many, hvs, Except.map], hall⟩
  · intro pre k post hkeys hpre hk
    subst hkeys
    have := getManyValues_first_missing db.storage k post hk pre hpre
    simp [Database.get_many, this, Except.map]

/-- Witness for `get_many_order_and_first_missing` at a concrete store. -/
theorem get_many_order_and_first_missing_witness :
    (∃ vs, (Database.get_many ⟨.Int, [("a", .Int 1), ("b", .Int 2)]⟩ ["b", "a"]) =
        .ok (.GET_MANY_OK vs) ∧
      List.Forall₂
        (fun k v => lookupKey [("a", .Int 1), ("b", .Int 2)] k = some v) ["b", "a"] vs) ∧
    (Database.get_many ⟨.Int, [("a", .Int 1), ("b", .Int 2)]⟩ ["a", "c", "b"]) =
      .error (.dbE (.KeyNotFound "c")) := by
  obtain ⟨h1, h2⟩ :=
    get_many_order_and_first_missing ⟨.Int, [("a", .Int 1), ("b", .Int 2)]⟩ ["b", "a"]
  obtain ⟨_, h2'⟩ :=
    get_many_order_and_first_missing ⟨.Int, [("a", .Int 1), ("b", .Int 2)]⟩ ["a", "c", "b"]
  exact ⟨h1 (by decide), h2' ["a"] "c" ["b"] rfl (by decide) (by decide)⟩

/-- `insertKey` always makes the inserted binding the one found. -/
theorem lookupKey_insertKey_self (k : String) (v : ValueType) :
    ∀ l : List (String × ValueType), lookupKey (insertKey k v l) k = some v := by
  intro l
  induction l with
  | nil => simp [insertKey, lookupKey]
  | cons p rest ih =>
    by_cases hlt : strLt k p.1
    · simp [insertKey, hlt, lookupKey]
    · by_cases heq : k = p.1
      · subst heq
        simp [insertKey, hlt, lookupKey]
      · have hbeq : (k == p.1) = false := beq_eq_false_iff_ne.mpr heq
        have hbeq' : (p.1 == k) = false := beq_eq_false_iff_ne.mpr (Ne.symm heq)
        simpa [insertKey, hlt, hbeq, lookupKey, List.find?, hbeq'] using ih

/-- On a sorted store that already contains the key, `insertKey` replaces
the binding in place: the key sequence is unchanged. -/
theorem map_fst_insertKey_of_mem (k : String) (v : ValueType) :
    ∀ l : List (String × ValueType), SortedKeys l → k ∈ l.map Prod.fst →
      (insertKey k v l).map Prod.fst = l.map Prod.fst := by
  intro l
  induction l with
  | nil => intro _ hmem; simp at hmem
  | cons p rest ih =>
    intro hsorted hmem
    rcases List.pairwise_cons.mp hsorted with ⟨hhead, htail⟩
    have hmem' : k = p.1 ∨ ∃ x, (k, x) ∈ rest := by simpa using hmem
    by_cases hlt : strLt k p.1
    · exfalso
      have hklt : k < p.1 := (strLt_iff k p.1).mp hlt
      rcases hmem' with hk | ⟨x, hx⟩
      · exact absurd hklt (by simp [hk])
      · exact absurd (hhead (k, x) hx) (not_lt.mpr (le_of_lt hklt))
    · by_cases heq : k = p.1
      · subst heq
        simp [insertKey, hlt]
      · have hbeq : (k == p.1) = false := beq_eq_false_iff_ne.mpr heq
        have hk : k ∈ rest.map Prod.fst := by
          rcases hmem' with hk | ⟨x, hx⟩
          · exact absurd hk heq
          · exact List.mem_map.mpr ⟨(k, x), hx, rfl⟩
        simp [insertKey, hlt, hbeq, ih htail hk]

/-- C10: `set` on a key already present with a value of the configured
type succeeds with `SET_OK`, afterwards reading the key yields the new
value, and the key sequence of the store (hence its key set and entry
count) is unchanged — `SET` is an upsert. -/
theorem set_overwrites_existing (db : Database) (key : String) (value : ValueType)
    (hsorted : SortedKeys db.storage)
    (hmem : (lookupKey db.storage key).isSome)
    (htype : db.check_value_type value = true) :
    (db.set key value).1 = .ok .SET_OK ∧
    lookupKey (db.set key value).2.storage key = some value ∧
    (db.set key value).2.storage.map Prod.fst = db.storage.map Prod.fst ∧
    (db.set key value).2.storage.length = db.storage.length := by
  have hmem' : key ∈ db.storage.map Prod.fst := by
    cases hf : db.storage.find? (fun q => q.1 == key) with
    | none => simp [lookupKey, hf] at hmem
    | some p =>
      have hpk : (p.1 == key) = true :=
        @List.find?_some _ (fun q => q.1 == key) p db.storage hf
      exact List.mem_map.mpr ⟨p, List.mem_of_find?_eq_some hf, beq_iff_eq.mp hpk⟩
  have hfst := map_fst_insertKey_of_mem key value db.storage hsorted hmem'
  refine ⟨?_, ?_, ?_, ?_⟩
  · simp [Database.set, htype]
  · simpa [Database.set, htype] using lookupKey_insertKey_self key value db.storage
  · simpa [Database.set, htype] using hfst
  · have := congrArg List.length hfst
    simpa [Database.set, htype] using this

/-- Witness for `set_overwrites_existing` at a concrete store. -/
theorem set_overwrites_existing_witness :
    ((⟨.Int, [("a", .Int 1), ("b", .Int 2)]⟩ : Database).set "b" (.Int 7)).1
      = .ok .SET_OK ∧
    lookupKey ((⟨.Int, [("a", .Int 1), ("b", .Int 2)]⟩ : Database).set "b" (.Int 7)).2.storage "b"
      = some (.Int 7) ∧
    ((⟨.Int, [("a", .Int 1), ("b", .Int 2)]⟩ : Database).set "b" (.Int 7)).2.storage.map Prod.fst
      = ["a", "b"] ∧
    ((⟨.Int, [("a", .Int 1), ("b", .Int 2)]⟩ : Database).set "b" (.Int 7)).2.storage.length = 2 := by
  obtain ⟨h1, h2, h3, h4⟩ :=
    set_overwrites_existing ⟨.Int, [("a", .Int 1), ("b", .Int 2)]⟩ "b" (.Int 7)
      (by constructor
          · intro b hb
            rcases (by simpa using hb) with rfl
            exact (strLt_iff "a" "b").mp (by decide)
          · simp)
      (by decide) (by decide)
  refine ⟨h1, h2, ?_, ?_⟩
  · rw [h3]; rfl
  · rw [h4]; rfl

/-- C5: for `lo ≤ hi`, `get_range` succeeds and returns exactly the
values of the stored pairs whose key lies in the inclusive range, with
the underlying keys strictly ascending (ascending lexicographic order);
an empty range is forced to yield `[]`.  For `lo > hi` it fails with
`invalidRangeOrder` (the operation is read-only, so the store is
untouched in both cases). -/
theorem get_range_spec (db : Database) (key_lower key_upper : String)
    (hsorted : SortedKeys db.storage) :
    (key_lower ≤ key_upper →
      ∃ pairs : List (String × ValueType),
        db.get_range key_lower key_upper = .ok (.GET_RANGE_OK (pairs.map Prod.snd)) ∧
        (∀ p ∈ pairs, p ∈ db.storage ∧ key_lower ≤ p.1 ∧ p.1 ≤ key_upper) ∧
        (∀ p ∈ db.storage, key_lower ≤ p.1 → p.1 ≤ key_upper → p ∈ pairs) ∧
        pairs.Pairwise (fun a b => a.1 < b.1)) ∧
    (key_upper < key_lower →
      db.get_range key_lower key_upper = .error (.dbE .InvalidRangeOrder)) := by
  constructor
  · intro hle
    have hb : strLt key_upper key_lower = false := by
      cases hcase : strLt key_upper key_lower with
      | false => rfl
      | true => exact absurd ((strLt_iff _ _).mp hcase) (not_lt.mpr hle)
    refine ⟨db.storage.filter (fun p => strLe key_lower p.1 && strLe p.1 key_upper),
      by simp [Database.get_range, hb], ?_, ?_, List.Pairwise.filter _ hsorted⟩
    · intro p hp
      rcases List.mem_filter.mp hp with ⟨hmem, hpred⟩
      simp only [Bool.and_eq_true] at hpred
      exact ⟨hmem, (strLe_iff _ _).mp hpred.1, (strLe_iff _ _).mp hpred.2⟩
    · intro p hmem h1 h2
      refine List.mem_filter.mpr ⟨hmem, ?_⟩
      simp only [Bool.and_eq_true]
      exact ⟨(strLe_iff _ _).mpr h1, (strLe_iff _ _).mpr h2⟩
  · intro hlt
    have hb : strLt key_upper key_lower = true := (strLt_iff _ _).mpr hlt
    simp [Database.get_range, hb]

/-- Witness for `get_range_spec` at a concrete sorted store. -/
theorem get_range_spec_witness :
    (∃ pairs : List (String × ValueType),
      (Database.get_range ⟨.Int, [("a", .Int 1), ("b", .Int 2), ("c", .Int 3)]⟩ "a" "b")
        = .ok (.GET_RANGE_OK (pairs.map Prod.snd)) ∧
      (∀ p ∈ pairs, p ∈ [("a", .Int 1), ("b", .Int 2), ("c", .Int 3)] ∧
        "a" ≤ p.1 ∧ p.1 ≤ "b") ∧
      (∀ p ∈ [(("a" : String), ValueType.Int 1), ("b", .Int 2), ("c", .Int 3)],
        "a" ≤ p.1 → p.1 ≤ "b" → p ∈ pairs) ∧
      pairs.Pairwise (fun a b => a.1 < b.1)) ∧
    (Database.get_range ⟨.Int, [("a", .Int 1), ("b", .Int 2), ("c", .Int 3)]⟩ "c" "a")
      = .error (.dbE .InvalidRangeOrder) := by
  have hsorted : SortedKeys [("a", .Int 1), ("b", .Int 2), ("c", .Int 3)] := by
    constructor
    · intro b hb
      rcases (by simpa using hb) with rfl | rfl
      · exact (strLt_iff "a" "b").mp (by decide)
      · exact (strLt_iff "a" "c").mp (by decide)
    · constructor
      · intro b hb
        rcases (by simpa using hb) with rfl
        exact (strLt_iff "b" "c").mp (by decide)
      · simp
  obtain ⟨h1, _⟩ :=
    get_range_spec ⟨.Int, [("a", .Int 1), ("b", .Int 2), ("c", .Int 3)]⟩ "a" "b" hsorted
  obtain ⟨_, h2⟩ :=
    get_range_spec ⟨.Int, [("a", .Int 1), ("b", .Int 2), ("c", .Int 3)]⟩ "c" "a" hsorted
  refine ⟨h1 ?_, h2 ?_⟩
  · exact le_of_lt ((strLt_iff "a" "b").mp (by decide))
  · exact (strLt_iff "a" "c").mp (by decide)

/-- A key token containing a comma or a slash is rejected by
`validate_key` — the forbidden-character scan runs before the quoted-key
branch, so quoting does not help. -/
theorem validate_key_forbidden_chars (key : List Char)
    (h : ',' ∈ key ∨ '/' ∈ key) :
    validate_key key = .error (.parserE .UnexpectedCharacter) := by
  have hany : (key.any fun c => c == ',' || c == '/') = true := by
    rcases h with h | h
    · exact List.any_eq_true.mpr ⟨',', h, by simp⟩
    · exact List.any_eq_true.mpr ⟨'/', h, by simp⟩
  simp [validate_key, hany]

/-- A quoted key whose content is non-empty and free of commas and
slashes validates to its content (outer quotes stripped). -/
theorem validate_key_quoted_ok (content : List Char) (hne : content ≠ [])
    (hc : ',' ∉ content) (hs : '/' ∉ content) :
    validate_key ('"' :: (content ++ ['"'])) = .ok content := by
  have hany : (('"' :: (content ++ ['"'])).any fun c => c == ',' || c == '/') = false := by
    rw [List.any_eq_false]
    intro c hcin
    rcases List.mem_cons.mp hcin with rfl | hcin
    · decide
    · rcases List.mem_append.mp hcin with hcin | hcin
      · simp only [Bool.or_eq_true, beq_iff_eq]
        rintro (rfl | rfl)
        · exact hc hcin
        · exact hs hcin
      · rcases List.mem_singleton.mp hcin with rfl
        decide

  have hlast : (content ++ ['"']).getLast? = some '"' := List.getLast?_concat _
  have hdropLast : (content ++ ['"']).dropLast = content := List.dropLast_concat
  have hlastAll : ('"' :: (content ++ ['"'])).getLast? = some '"' := by
    rw [← List.cons_append]
    exact List.getLast?_concat _
  have hemp : content.isEmpty = false := by
    simpa [List.isEmpty_iff] using hne
  simp [validate_key, hany, hlastAll, List.drop_one, hlast, hdropLast, hemp]

/-- C2 counterexample: with a slash inside a double-quoted key, `GET`,
`SET` and `EXISTS` requests are all rejected with `unexpectedCharacter`
instead of parsing (configured type `INT`, as in the spec scenario). -/
theorem quoted_key_slash_rejected_cex :
    parse "GET \"a/b\"".data .Int = .error (.parserE .UnexpectedCharacter) ∧
    parse "SET \"a/b\" 7".data .Int = .error (.parserE .UnexpectedCharacter) ∧
    parse "EXISTS \"a/b\"".data .Int = .error (.parserE .UnexpectedCharacter) := by
  refine ⟨?_, ?_, ?_⟩ <;> rfl

/-- C2 amended: quoting a key only lifts the no-space restriction: a
quoted key with non-empty content free of commas and slashes parses to
the content between the outer quotes (spaces allowed), but any key token
containing a comma or slash — quoted or bare — fails with
`unexpectedCharacter`. -/
theorem key_charset_amended :
    (∀ key : List Char, (',' ∈ key ∨ '/' ∈ key) →
      validate_key key = .error (.parserE .UnexpectedCharacter)) ∧
    (∀ content : List Char, content ≠ [] → ',' ∉ content → '/' ∉ content →
      parse_get ('"' :: (content ++ ['"'])) = .ok (.GET (String.mk content))) := by
  constructor
  · exact validate_key_forbidden_chars
  · intro content hne hc hs
    have hR : hasStart "RANGE " ('"' :: (content ++ ['"'])) = false := rfl
    have hM : hasStart "MANY " ('"' :: (content ++ ['"'])) = false := rfl
    simp [parse_get, hR, hM, validate_key_quoted_ok content hne hc hs]

/-- Witness for `key_charset_amended` at concrete key tokens. -/
theorem key_charset_amended_witness :
    validate_key "a,b".data = .error (.parserE .UnexpectedCharacter) ∧
    parse_get "\"a b\"".data = .ok (.GET "a b") := by
  obtain ⟨h1, h2⟩ := key_charset_amended
  exact ⟨h1 "a,b".data (Or.inl (by decide)),
    h2 "a b".data (by decide) (by decide) (by decide)⟩

/-- The start-marker guard of `check_protocol` holds exactly when the
line extends the start marker. -/
theorem startGuard_iff (r : List Char) :
    (decide (r.length ≥ REQUEST_START_MARKER.data.length)
      && (r.take REQUEST_START_MARKER.data.length == REQUEST_START_MARKER.data)) = true
    ↔ ∃ t, r = REQUEST_START_MARKER.data ++ t := by
  constructor
  · intro h
    simp only [Bool.and_eq_true, decide_eq_true_eq, beq_iff_eq] at h
    refine ⟨r.drop REQUEST_START_MARKER.data.length, ?_⟩
    conv_lhs => rw [← List.take_append_drop REQUEST_START_MARKER.data.length r]
    rw [h.2]
  · rintro ⟨t, rfl⟩
    simp only [Bool.and_eq_true, decide_eq_true_eq, beq_iff_eq]
    exact ⟨by simp, List.take_left _ _⟩

/-- The end-marker guard of `check_protocol` holds exactly when the line
ends with the end marker. -/
theorem endGuard_iff (r : List Char) :
    (r.drop (r.length - REQUEST_END_MARKER.data.length) == REQUEST_END_MARKER.data) = true
    ↔ ∃ s, r = s ++ REQUEST_END_MARKER.data := by
  constructor
  · intro h
    rw [beq_iff_eq] at h
    refine ⟨r.take (r.length - REQUEST_END_MARKER.data.length), ?_⟩
    conv_lhs => rw [← List.take_append_drop (r.length - REQUEST_END_MARKER.data.length) r]
    rw [h]
  · rintro ⟨s, rfl⟩
    rw [beq_iff_eq]
    have hl : (s ++ REQUEST_END_MARKER.data).length - REQUEST_END_MARKER.data.length
        = s.length := by
      simp
    rw [hl]
    exact List.drop_left s _

/-- C7: `check_protocol` classifies every line in order: empty or a lone
newline → `emptyRequest`; otherwise not an extension of `CASP/` →
`startMarkerNotFound`; otherwise not ending in `/\n`, or no longer than
the two markers combined → `endMarkerNotFound`; otherwise accepted. -/
theorem check_protocol_classifies (r : List Char) :
    ((r = [] ∨ r = ['\n']) → check_protocol r = .error (.protocolE .EmptyRequest)) ∧
    (r ≠ [] → r ≠ ['\n'] → (¬ ∃ t, r = REQUEST_START_MARKER.data ++ t) →
      check_protocol r = .error (.protocolE (.StartMarkerNotFound REQUEST_START_MARKER))) ∧
    (r ≠ [] → r ≠ ['\n'] → (∃ t, r = REQUEST_START_MARKER.data ++ t) →
      ((¬ ∃ s, r = s ++ REQUEST_END_MARKER.data) ∨
        r.length ≤ REQUEST_START_MARKER.data.length + REQUEST_END_MARKER.data.length) →
      check_protocol r = .error (.protocolE (.EndMarkerNotFound REQUEST_END_MARKER))) ∧
    (r ≠ [] → r ≠ ['\n'] → (∃ t, r = REQUEST_START_MARKER.data ++ t) →
      (∃ s, r = s ++ REQUEST_END_MARKER.data) →
      REQUEST_START_MARKER.data.length + REQUEST_END_MARKER.data.length < r.length →
      check_protocol r = .ok ()) := by
  refine ⟨?_, ?_, ?_, ?_⟩
  · rintro (rfl | rfl) <;> rfl
  · intro hne1 hne2 hstart
    have h1 : ¬ ((r == [] || r == ['\n']) = true) := by
      simp [beq_eq_false_iff_ne.mpr hne1, beq_eq_false_iff_ne.mpr hne2]
    have hs : (decide (r.length ≥ REQUEST_START_MARKER.data.length)
        && (r.take REQUEST_START_MARKER.data.length == REQUEST_START_MARKER.data)) = false := by
      cases hcase : (decide (r.length ≥ REQUEST_START_MARKER.data.length)
          && (r.take REQUEST_START_MARKER.data.length == REQUEST_START_MARKER.data)) with
      | false => rfl
      | true => exact absurd ((startGuard_iff r).mp hcase) hstart
    have h2 : (!(decide (r.length ≥ REQUEST_START_MARKER.data.length)
        && (r.take REQUEST_START_MARKER.data.length == REQUEST_START_MARKER.data))) = true := by
      rw [hs]; rfl
    unfold check_protocol
    rw [if_neg h1, if_pos h2]
  · intro hne1 hne2 hstart hend
    have h1 : ¬ ((r == [] || r == ['\n']) = true) := by
      simp [beq_eq_false_iff_ne.mpr hne1, beq_eq_false_iff_ne.mpr hne2]
    have hs := (startGuard_iff r).mpr hstart
    have h2 : ¬ ((!(decide (r.length ≥ REQUEST_START_MARKER.data.length)
        && (r.take REQUEST_START_MARKER.data.length == REQUEST_START_MARKER.data))) = true) := by
      rw [hs]; decide
    rcases hend with hend | hlen
    · have he : (r.drop (r.length - REQUEST_END_MARKER.data.length)
          == REQUEST_END_MARKER.data) = false := by
        cases hcase : (r.drop (r.length - REQUEST_END_MARKER.data.length)
            == REQUEST_END_MARKER.data) with
        | false => rfl
        | true => exact absurd ((endGuard_iff r).mp hcase) hend
      have h3 : (!(r.drop (r.length - REQUEST_END_MARKER.data.length)
          == REQUEST_END_MARKER.data)) = true := by
        rw [he]; rfl
      unfold check_protocol
      rw [if_neg h1, if_neg h2, if_pos h3]
    · by_cases hecase : (r.drop (r.length - REQUEST_END_MARKER.data.length)
          == REQUEST_END_MARKER.data) = true
      · have h3 : ¬ ((!(r.drop (r.length - REQUEST_END_MARKER.data.length)
            == REQUEST_END_MARKER.data)) = true) := by
          rw [hecase]; decide
        unfold check_protocol
        rw [if_neg h1, if_neg h2, if_neg h3, if_pos hlen]
      · have he : (r.drop (r.length - REQUEST_END_MARKER.data.length)
            == REQUEST_END_MARKER.data) = false := by
          cases hcase : (r.drop (r.length - REQUEST_END_MARKER.data.length)
              == REQUEST_END_MARKER.data) with
          | false => rfl
          | true => exact absurd hcase hecase
        have h3 : (!(r.drop (r.length - REQUEST_END_MARKER.data.length)
            == REQUEST_END_MARKER.data)) = true := by
          rw [he]; rfl
        unfold check_protocol
        rw [if_neg h1, if_neg h2, if_pos h3]
  · intro hne1 hne2 hstart hend hlen
    have h1 : ¬ ((r == [] || r == ['\n']) = true) := by
      simp [beq_eq_false_iff_ne.mpr hne1, beq_eq_false_iff_ne.mpr hne2]
    have hs := (startGuard_iff r).mpr hstart
    have h2 : ¬ ((!(decide (r.length ≥ REQUEST_START_MARKER.data.length)
        && (r.take REQUEST_START_MARKER.data.length == REQUEST_START_MARKER.data))) = true) := by
      rw [hs]; decide
    have he := (endGuard_iff r).mpr hend
    have h3 : ¬ ((!(r.drop (r.length - REQUEST_END_MARKER.data.length)
        == REQUEST_END_MARKER.data)) = true) := by
      rw [he]; decide
    unfold check_protocol
    rw [if_neg h1, if_neg h2, if_neg h3, if_neg (not_le.mpr hlen)]

/-- Witness for `check_protocol_classifies` at concrete lines. -/
theorem check_protocol_classifies_witness :
    check_protocol "\n".data = .error (.protocolE .EmptyRequest) ∧
    check_protocol "PING/\n".data = .error (.protocolE (.StartMarkerNotFound "CASP/")) ∧
    check_protocol "CASP/PING".data = .error (.protocolE (.EndMarkerNotFound "/\n")) ∧
    check_protocol "CASP/PING/\n".data = .ok () := by
  obtain ⟨h1, _, _, _⟩ := check_protocol_classifies "\n".data
  obtain ⟨_, h2, _, _⟩ := check_protocol_classifies "PING/\n".data
  obtain ⟨_, _, h3, _⟩ := check_protocol_classifies "CASP/PING".data
  obtain ⟨_, _, _, h4⟩ := check_protocol_classifies "CASP/PING/\n".data
  refine ⟨h1 (Or.inr rfl), h2 (by decide) (by decide) ?_, h3 (by decide) (by decide)
    ⟨"PING".data, by decide⟩ (Or.inl ?_), h4 (by decide) (by decide)
    ⟨"PING/\n".data, by decide⟩ ⟨"CASP/PING".data, by decide⟩ (by decide)⟩
  · rintro ⟨t, ht⟩
    have h5 : List.take REQUEST_START_MARKER.data.length
        (REQUEST_START_MARKER.data ++ t) = REQUEST_START_MARKER.data :=
      List.take_left _ _
    rw [← ht] at h5
    exact absurd h5 (by decide)
  · rintro ⟨s, hs⟩
    have hG : ("CASP/PING".data).getLast? = some 'G' := by decide
    rw [hs] at hG
    have hN : (s ++ REQUEST_END_MARKER.data).getLast? = some '\n' := by
      have : s ++ REQUEST_END_MARKER.data = (s ++ ['/']) ++ ['\n'] := by
        rw [List.append_assoc]; rfl
      rw [this]
      exact List.getLast?_concat _
    rw [hN] at hG
    exact absurd hG (by decide)

/-- No newline among a string's characters. -/
abbrev noNL (s : String) : Prop :=
  '\n' ∉ s.data

/-- The rendered payloads inside a response carry no newline.  Server
values originate from a single request line read up to `\n`, so this
holds for every response the server actually builds. -/
def payloadsNoNL : QueryResponseType → Prop
  | .GET_OK v => noNL (QueryResponse.handle_value_types v)
  | .GET_RANGE_OK vs => ∀ v ∈ vs, noNL (QueryResponse.handle_value_types v)
  | .GET_MANY_OK vs => ∀ v ∈ vs, noNL (QueryResponse.handle_value_types v)
  | _ => True

theorem noNL_append (a b : String) : noNL (a ++ b) ↔ noNL a ∧ noNL b := by
  simp [noNL, String.data_append, not_or]

theorem digitChar_ne_newline (m : Nat) : Nat.digitChar m ≠ '\n' := by
  match m with
  | 0 | 1 | 2 | 3 | 4 | 5 | 6 | 7 | 8 | 9 | 10 | 11 | 12 | 13 | 14 | 15 => decide
  | n + 16 =>
    show Nat.digitChar (n + 16) ≠ '\n'
    unfold Nat.digitChar
    rw [if_neg (by omega), if_neg (by omega), if_neg (by omega), if_neg (by omega),
      if_neg (by omega), if_neg (by omega), if_neg (by omega), if_neg (by omega),
      if_neg (by omega), if_neg (by omega), if_neg (by omega), if_neg (by omega),
      if_neg (by omega), if_neg (by omega), if_neg (by omega), if_neg (by omega)]
    decide

theorem toDigitsCore_ne_newline (b : Nat) :
    ∀ (fuel n : Nat) (ds : List Char), (∀ c ∈ ds, c ≠ '\n') →
      ∀ c ∈ Nat.toDigitsCore b fuel n ds, c ≠ '\n' := by
  intro fuel
  induction fuel with
  | zero =>
    intro n ds hds c hc
    exact hds c (by simpa [Nat.toDigitsCore] using hc)
  | succ fuel ih =>
    intro n ds hds c hc
    simp only [Nat.toDigitsCore] at hc
    by_cases h : n / b = 0
    · rw [if_pos h] at hc
      rcases List.mem_cons.mp hc with rfl | hc
      · exact digitChar_ne_newline _
      · exact hds c hc
    · rw [if_neg h] at hc
      refine ih (n / b) (Nat.digitChar (n % b) :: ds) ?_ c hc
      intro c' hc'
      rcases List.mem_cons.mp hc' with rfl | hc'
      · exact digitChar_ne_newline _
      · exact hds c' hc'

/-- A `Nat` rendered by `Display` has no newline. -/
theorem noNL_natToString (n : Nat) : noNL (toString n) := by
  intro hmem
  exact toDigitsCore_ne_newline 10 (n + 1) n [] (by simp) '\n' hmem rfl

/-- An `Int` rendered by `Display` has no newline. -/
theorem noNL_intToString (n : Int) : noNL (toString n) := by
  cases n with
  | ofNat m => exact noNL_natToString m
  | negSucc m =>
    show noNL ("-" ++ Nat.repr (m + 1))
    exact (noNL_append "-" (Nat.repr (m + 1))).mpr ⟨by decide, noNL_natToString (m + 1)⟩

theorem noNL_display (dt : DatabaseType) : noNL dt.display := by
  cases dt <;> decide

theorem noNL_joinComma (L : List String) (h : ∀ s ∈ L, noNL s) :
    noNL (QueryResponse.joinComma L) := by
  induction L with
  | nil => simp [QueryResponse.joinComma, noNL]
  | cons a L ih =>
    cases L with
    | nil => simpa [QueryResponse.joinComma] using h a (by simp)
    | cons b L' =>
      rw [QueryResponse.joinComma, noNL_append, noNL_append]
      refine ⟨⟨h a (by simp), by decide⟩, ih ?_⟩
      intro s hs
      exact h s (by simp [List.mem_cons.mp hs])

theorem build_ok_none_none (qid : String) :
    QueryResponse.build_ok_response qid none none = "CASP/OK/" ++ qid ++ "/\n" := by
  simp [QueryResponse.build_ok_response, QueryResponse.CASP_PREFIX,
    QueryResponse.CASP_OK_INDENTIFIER, QueryResponse.CASP_SUFFIX, String.append_assoc]

theorem build_ok_some_none (qid content : String) :
    QueryResponse.build_ok_response qid (some content) none
      = "CASP/OK/" ++ qid ++ "/" ++ content ++ "/\n" := by
  simp [QueryResponse.build_ok_response, QueryResponse.CASP_PREFIX,
    QueryResponse.CASP_OK_INDENTIFIER, QueryResponse.CASP_SUFFIX, String.append_assoc]

theorem build_ok_some_some (qid content : String) (dt : DatabaseType) :
    QueryResponse.build_ok_response qid (some content) (some dt)
      = "CASP/OK/" ++ dt.display ++ "/" ++ qid ++ "/" ++ content ++ "/\n" := by
  simp [QueryResponse.build_ok_response, QueryResponse.CASP_PREFIX,
    QueryResponse.CASP_OK_INDENTIFIER, QueryResponse.CASP_SUFFIX, String.append_assoc]

theorem error_frame_eq (msg : String) :
    QueryResponse.error msg = "CASP/ERROR/" ++ msg ++ "/\n" := by
  simp [QueryResponse.error, QueryResponse.CASP_PREFIX,
    QueryResponse.CASP_ERROR_INDENTIFIER, QueryResponse.CASP_SUFFIX, String.append_assoc]

/-- C8: every encoded response is one frame `… ++ "/\n"` with no newline
before the terminator (given newline-free payloads, which the server
guarantees since values come from a single request line), and the
encoder follows the response table: `GET` caries the type tag and the
rendered value (strings quoted, ints/bools in their natural textual
form), `GET RANGE`/`GET MANY` comma-join the rendered values, `LEN`
carries the count, `PING` answers `PONG`, `EXISTS` answers
`true`/`false`, no-body commands close after the command token, errors
use the `ERROR` status and the shutdown warning is
`CASP/WARN/SHUTDOWN/\n`. -/
theorem response_frames (dt : DatabaseType) :
    (∀ r : QueryResponseType, payloadsNoNL r →
      ∃ body : String, QueryResponse.ok r dt = body ++ "/\n" ∧ noNL body) ∧
    (∀ v, QueryResponse.ok (.GET_OK v) dt =
      "CASP/OK/" ++ dt.display ++ "/GET/" ++ QueryResponse.handle_value_types v ++ "/\n") ∧
    (∀ vs, QueryResponse.ok (.GET_RANGE_OK vs) dt =
      "CASP/OK/" ++ dt.display ++ "/GET RANGE/"
        ++ QueryResponse.joinComma (vs.map QueryResponse.handle_value_types) ++ "/\n") ∧
    (∀ vs, QueryResponse.ok (.GET_MANY_OK vs) dt =
      "CASP/OK/" ++ dt.display ++ "/GET MANY/"
        ++ QueryResponse.joinComma (vs.map QueryResponse.handle_value_types) ++ "/\n") ∧
    (∀ s, QueryResponse.handle_value_types (.Str s) = "\"" ++ s ++ "\"") ∧
    (∀ n, QueryResponse.handle_value_types (.Int n) = toString n) ∧
    (∀ b, QueryResponse.handle_value_types (.Bool b) = if b then "true" else "false") ∧
    (∀ j, QueryResponse.handle_value_types (.Json j) = j) ∧
    (∀ n, QueryResponse.ok (.LEN_OK n) dt = "CASP/OK/LEN/" ++ toString n ++ "/\n") ∧
    (QueryResponse.ok .PING_OK dt = "CASP/OK/PING/PONG/\n") ∧
    (∀ b, QueryResponse.ok (.EXISTS_OK b) dt =
      "CASP/OK/EXISTS/" ++ (if b then "true" else "false") ++ "/\n") ∧
    (QueryResponse.ok .DEL_OK dt = "CASP/OK/DEL/\n" ∧
      QueryResponse.ok .DEL_RANGE_OK dt = "CASP/OK/DEL RANGE/\n" ∧
      QueryResponse.ok .DEL_MANY_OK dt = "CASP/OK/DEL MANY/\n" ∧
      QueryResponse.ok .SET_OK dt = "CASP/OK/SET/\n" ∧
      QueryResponse.ok .SET_MANY_OK dt = "CASP/OK/SET MANY/\n" ∧
      QueryResponse.ok .AUTH_OK dt = "CASP/OK/AUTH/\n" ∧
      QueryResponse.ok .CLEAR_OK dt = "CASP/OK/CLEAR/\n" ∧
      QueryResponse.ok .SHUTDOWN_OK dt = "CASP/OK/SHUTDOWN/\n") ∧
    (∀ msg, QueryResponse.error msg = "CASP/ERROR/" ++ msg ++ "/\n") ∧
    (∀ msg, noNL msg →
      ∃ body, QueryResponse.error msg = body ++ "/\n" ∧ noNL body) ∧
    (QueryResponse.warn "SHUTDOWN" = "CASP/WARN/SHUTDOWN/\n") := by
  refine ⟨?_, ?_, ?_, ?_, fun s => rfl, fun n => rfl, fun b => rfl, fun j => rfl,
    ?_, ?_, ?_, ?_, ?_, ?_, ?_⟩
  · intro r hr
    cases r with
    | GET_OK v =>
      refine ⟨"CASP/OK/" ++ dt.display ++ "/" ++ "GET" ++ "/"
        ++ QueryResponse.handle_value_types v,
        by simp [QueryResponse.ok, build_ok_some_some, String.append_assoc], ?_⟩
      simp only [noNL_append]
      exact ⟨⟨⟨⟨⟨by decide, noNL_display dt⟩, by decide⟩, by decide⟩, by decide⟩, hr⟩
    | GET_RANGE_OK vs =>
      refine ⟨"CASP/OK/" ++ dt.display ++ "/" ++ "GET RANGE" ++ "/"
        ++ QueryResponse.joinComma (vs.map QueryResponse.handle_value_types),
        by simp [QueryResponse.ok, build_ok_some_some, String.append_assoc], ?_⟩
      simp only [noNL_append]
      refine ⟨⟨⟨⟨⟨by decide, noNL_display dt⟩, by decide⟩, by decide⟩, by decide⟩,
        noNL_joinComma _ ?_⟩
      intro s hs
      rcases List.mem_map.mp hs with ⟨v, hv, rfl⟩
      exact hr v hv
    | GET_MANY_OK vs =>
      refine ⟨"CASP/OK/" ++ dt.display ++ "/" ++ "GET MANY" ++ "/"
        ++ QueryResponse.joinComma (vs.map QueryResponse.handle_value_types),
        by simp [QueryResponse.ok, build_ok_some_some, String.append_assoc], ?_⟩
      simp only [noNL_append]
      refine ⟨⟨⟨⟨⟨by decide, noNL_display dt⟩, by decide⟩, by decide⟩, by decide⟩,
        noNL_joinComma _ ?_⟩
      intro s hs
      rcases List.mem_map.mp hs with ⟨v, hv, rfl⟩
      exact hr v hv
    | DEL_OK =>
      exact ⟨"CASP/OK/" ++ "DEL",
        by simp [QueryResponse.ok, build_ok_none_none, String.append_assoc], by decide⟩
    | DEL_RANGE_OK =>
      exact ⟨"CASP/OK/" ++ "DEL RANGE",
        by simp [QueryResponse.ok, build_ok_none_none, String.append_assoc], by decide⟩
    | DEL_MANY_OK =>
      exact ⟨"CASP/OK/" ++ "DEL MANY",
        by simp [QueryResponse.ok, build_ok_none_none, String.append_assoc], by decide⟩
    | SET_OK =>
      exact ⟨"CASP/OK/" ++ "SET",
        by simp [QueryResponse.ok, build_ok_none_none, String.append_assoc], by decide⟩
    | SET_MANY_OK =>
      exact ⟨"CASP/OK/" ++ "SET MANY",
        by simp [QueryResponse.ok, build_ok_none_none, String.append_assoc], by decide⟩
    | AUTH_OK =>
      exact ⟨"CASP/OK/" ++ "AUTH",
        by simp [QueryResponse.ok, build_ok_none_none, String.append_assoc], by decide⟩
    | CLEAR_OK =>
      exact ⟨"CASP/OK/" ++ "CLEAR",
        by simp [QueryResponse.ok, build_ok_none_none, String.append_assoc], by decide⟩
    | SHUTDOWN_OK =>
      exact ⟨"CASP/OK/" ++ "SHUTDOWN",
        by simp [QueryResponse.ok, build_ok_none_none, String.append_assoc], by decide⟩
    | LEN_OK n =>
      refine ⟨"CASP/OK/" ++ "LEN" ++ "/" ++ toString n,
        by simp [QueryResponse.ok, build_ok_some_none, String.append_assoc], ?_⟩
      simp only [noNL_append]
      exact ⟨⟨⟨by decide, by decide⟩, by decide⟩, noNL_natToString n⟩
    | PING_OK =>
      exact ⟨"CASP/OK/" ++ "PING" ++ "/" ++ "PONG",
        by simp [QueryResponse.ok, build_ok_some_none, String.append_assoc], by decide⟩
    | EXISTS_OK b =>
      refine ⟨"CASP/OK/" ++ "EXISTS" ++ "/" ++ (if b then "true" else "false"),
        by simp [QueryResponse.ok, build_ok_some_none, String.append_assoc], ?_⟩
      cases b <;> decide
  · intro v
    simp [QueryResponse.ok, build_ok_some_some, String.append_assoc]
  · intro vs
    simp [QueryResponse.ok, build_ok_some_some, String.append_assoc]
  · intro vs
    simp [QueryResponse.ok, build_ok_some_some, String.append_assoc]
  · intro n
    simp [QueryResponse.ok, build_ok_some_none, String.append_assoc]
  · simp [QueryResponse.ok, build_ok_some_none, String.append_assoc]
  · intro b
    simp [QueryResponse.ok, build_ok_some_none, String.append_assoc]
  · refine ⟨?_, ?_, ?_, ?_, ?_, ?_, ?_, ?_⟩ <;>
      simp [QueryResponse.ok, build_ok_none_none, String.append_assoc]
  · exact error_frame_eq
  · intro msg hmsg
    refine ⟨"CASP/ERROR/" ++ msg, error_frame_eq msg, ?_⟩
    simp only [noNL_append]
    exact ⟨by decide, hmsg⟩
  · simp [QueryResponse.warn, QueryResponse.CASP_PREFIX,
      QueryResponse.CASP_WARN_INDENTIFIER, QueryResponse.CASP_SUFFIX, String.append_assoc]

/-- Witness for `response_frames` at concrete responses. -/
theorem response_frames_witness :
    (∃ body : String,
      QueryResponse.ok (.GET_OK (.Str "v")) .Str = body ++ "/\n" ∧ noNL body) ∧
    (∃ body : String,
      QueryResponse.error "boom" = body ++ "/\n" ∧ noNL body) := by
  obtain ⟨h1, _⟩ := response_frames .Str
  obtain ⟨-, -, -, -, -, -, -, -, -, -, -, -, -, h2, -⟩ := response_frames .Str
  exact ⟨h1 (.GET_OK (.Str "v"))
    (show noNL (QueryResponse.handle_value_types (.Str "v")) by decide),
    h2 "boom" (by decide)⟩

/-- C3 (code bug): a connection that never authenticated sends
`CASP/SHUTDOWN/\n`.  The handler triggers the shutdown broadcast and
writes the `OK` frame anyway — the `SHUTDOWN` short-circuit in
`handle_client` runs before `State::execute_request`, so the
authentication gate (which would answer `notAuthenticated`, third
conjunct) is never consulted. -/
theorem shutdown_bypasses_auth_gate :
    handle_client_step ⟨⟨.Int, []⟩, [], "Pwd12345!", .Int⟩ "1.2.3.4:80"
        "CASP/SHUTDOWN/\n".data
      = (.broadcastShutdown "CASP/OK/SHUTDOWN/\n", ⟨⟨.Int, []⟩, [], "Pwd12345!", .Int⟩) ∧
    (⟨⟨.Int, []⟩, [], "Pwd12345!", .Int⟩ : State).is_authenticated "1.2.3.4:80" = false ∧
    (⟨⟨.Int, []⟩, [], "Pwd12345!", .Int⟩ : State).execute_request "1.2.3.4:80" .SHUTDOWN
      = (.error (.authE .NotAuthenticated), ⟨⟨.Int, []⟩, [], "Pwd12345!", .Int⟩) := by
  refine ⟨?_, rfl, rfl⟩
  decide

end Cachew
